import Mathlib

/-!
Verification of the PlantVision-AI FastAPI service (src/app.py) against its
natural-language specification.

The shallow embedding models:
* the image preprocessor `preprocess_image` (decode, RGB conversion, resize
  to 224x224, float32/255 normalization, batch dimension);
* the top-1 response formatting (`np.argmax` over the probability vector,
  label lookup, confidence extraction);
* the request handlers `predict_plant`, `predict_plant_base64` and
  `predict_batch`, including their try/except wrapping;
* the startup `load_model` routine and the `/health` endpoint.

External library collaborators (PIL decoding/resizing, the TensorFlow model,
base64 decoding) are either parameters of the embedded handlers or small
executable models of the library contract; pixel values carry the uint8
invariant (each channel value is at most 255).  Float32 values are modelled
as rationals.
-/

namespace PlantVision

/-- An HTTP error as raised by `HTTPException(status_code, detail)`. -/
structure HTTPError where
  status : Nat
  detail : String
deriving DecidableEq, Repr

/-- `str()` of a Starlette `HTTPException` is `f"{status_code}: {detail}"`;
this is the message the catch-all `except Exception` blocks observe. -/
def str_http (e : HTTPError) : String :=
  toString e.status ++ ": " ++ e.detail

/-- Python `s.startswith(pre)`, over the character sequences of the two
strings. -/
def str_startswith (s pre : String) : Bool :=
  pre.data.isPrefixOf s.data

/-- One RGB pixel: red, green, blue channel values (uint8 contents, the
bound 255 is tracked by validity predicates, not by the type). -/
abbrev Pixel := Nat × Nat × Nat

/-- The final 4-dimensional tensor produced by `preprocess_image`:
batch, row, column, channel.  Element values are float32, modelled as `ℚ`. -/
abbrev Tensor4 := List (List (List (List ℚ)))

/- ### np.argmax and the top-1 formatting step (src/app.py lines 152-154) -/

/-- `np.argmax` over a vector: the first index attaining the maximum value.
`argmax (x :: rest)` keeps index 0 unless the tail maximum is strictly
greater, which yields the first-occurrence tie-breaking of `np.argmax`. -/
def argmax : List ℚ → Nat
  | [] => 0
  | [_] => 0
  | x :: y :: t =>
      let j := argmax (y :: t)
      if x < (y :: t).getD j 0 then j + 1 else 0

/-- Lines 152-154 of src/app.py:
`predicted_class_index = np.argmax(predictions[0])`,
`confidence = float(predictions[0][predicted_class_index])`,
`predicted_class = plant_classes[predicted_class_index]`.
The label lookup raises `IndexError` when the index is out of range,
modelled by `Option`. -/
def format_top1 (probs : List ℚ) (classes : List String) : Option (String × ℚ) :=
  let i := argmax probs
  let confidence := probs.getD i 0
  (classes.get? i).map (fun c => (c, confidence))

theorem argmax_nil : argmax [] = 0 := rfl

theorem argmax_singleton (x : ℚ) : argmax [x] = 0 := rfl

theorem argmax_cons_cons (x y : ℚ) (t : List ℚ) :
    argmax (x :: y :: t) =
      if x < (y :: t).getD (argmax (y :: t)) 0 then argmax (y :: t) + 1 else 0 := rfl

/-- The argmax index is in range for a non-empty vector. -/
theorem argmax_lt_length : ∀ (l : List ℚ), l ≠ [] → argmax l < l.length
  | [], h => absurd rfl h
  | [_], _ => Nat.zero_lt_one
  | x :: y :: t, _ => by
      rw [argmax_cons_cons]
      split
      · have ih := argmax_lt_length (y :: t) (by simp)
        simpa using Nat.succ_lt_succ ih
      · simp

/-- Every entry of the vector is at most the entry at the argmax index. -/
theorem argmax_is_max : ∀ (l : List ℚ) (k : Nat), k < l.length →
    l.getD k 0 ≤ l.getD (argmax l) 0
  | [], k, hk => by simp at hk
  | [x], k, hk => by
      match k with
      | 0 => simp [argmax_singleton]
      | Nat.succ k => simp at hk
  | x :: y :: t, k, hk => by
      rw [argmax_cons_cons]
      split
      · -- tail maximum is strictly greater than the head
        rename_i hlt
        match k with
        | 0 => exact le_of_lt (by simpa using hlt)
        | Nat.succ k =>
            have ih := argmax_is_max (y :: t) k (by simpa using hk)
            simpa using ih
      · -- head is at least the tail maximum
        rename_i hge
        push_neg at hge
        match k with
        | 0 => simp
        | Nat.succ k =>
            have ih := argmax_is_max (y :: t) k (by simpa using hk)
            simpa using le_trans ih hge

/-- Entries strictly before the argmax index are strictly below the maximum:
the argmax index is the FIRST index attaining the maximum. -/
theorem argmax_first : ∀ (l : List ℚ) (k : Nat), k < argmax l →
    l.getD k 0 < l.getD (argmax l) 0
  | [], k, hk => by simp [argmax_nil] at hk
  | [x], k, hk => by simp [argmax_singleton] at hk
  | x :: y :: t, k, hk => by
      rw [argmax_cons_cons] at hk ⊢
      split
      · rename_i hlt
        simp only [if_pos hlt] at hk
        match k with
        | 0 => simpa using hlt
        | Nat.succ k =>
            have ih := argmax_first (y :: t) k (Nat.lt_of_succ_lt_succ hk)
            simpa using ih
      · rename_i hge
        simp only [if_neg hge] at hk
        exact absurd hk (Nat.not_lt_zero k)

/- ### PIL images and the image preprocessor (src/app.py lines 78-102) -/

/-- A decoded PIL image: a pixel grid together with its color mode.
The three modes relevant to the spec are 3-channel RGB, single-channel
grayscale ("L") and RGBA with an alpha channel. -/
inductive PILImage where
  | rgbImg (px : List (List Pixel))
  | grayImg (px : List (List Nat))
  | rgbaImg (px : List (List (Nat × Nat × Nat × Nat)))

/-- `image.mode` of a PIL image. -/
def PILImage.mode : PILImage → String
  | .rgbImg _ => "RGB"
  | .grayImg _ => "L"
  | .rgbaImg _ => "RGBA"

/-- The uint8 invariant of a decoded image: every channel value is at most
255.  PIL guarantees this for every successfully decoded image in these
modes. -/
def PILImage.Valid : PILImage → Prop
  | .rgbImg px => ∀ row ∈ px, ∀ p ∈ row, p.1 ≤ 255 ∧ p.2.1 ≤ 255 ∧ p.2.2 ≤ 255
  | .grayImg px => ∀ row ∈ px, ∀ v ∈ row, v ≤ 255
  | .rgbaImg px =>
      ∀ row ∈ px, ∀ p ∈ row, p.1 ≤ 255 ∧ p.2.1 ≤ 255 ∧ p.2.2.1 ≤ 255

instance : ∀ img : PILImage, Decidable img.Valid := by
  intro img
  cases img <;> simp only [PILImage.Valid] <;> infer_instance

/-- Lines 85-86: `if image.mode != 'RGB': image = image.convert('RGB')`.
PIL `convert('RGB')` expands grayscale to three identical channels and
drops the alpha channel of an RGBA image; on an RGB image the branch is
skipped and the pixels are unchanged.  This conversion is total: it never
fails on a successfully decoded image. -/
def PILImage.convertRGB : PILImage → List (List Pixel)
  | .rgbImg px => px
  | .grayImg px => px.map (fun row => row.map (fun v => (v, v, v)))
  | .rgbaImg px => px.map (fun row => row.map (fun p => (p.1, p.2.1, p.2.2.1)))

/-- Pixel access with the out-of-range default of the model. -/
def getPixel (px : List (List Pixel)) (r c : Nat) : Pixel :=
  (px.getD r []).getD c (0, 0, 0)

/-- Line 89: `image.resize((224, 224))`.  Model of the PIL resize call:
a 224x224 output grid whose pixel (i, j) is sampled from the source grid.
The library contract the service relies on is that the output is exactly
224x224 and that output channel values stay uint8 (sampled or interpolated
from uint8 inputs); the exact filter is an external library choice, modelled
here as nearest-neighbour sampling. -/
def resizeRGB224 (px : List (List Pixel)) : List (List Pixel) :=
  let h := px.length
  let w := (px.headD []).length
  (List.range 224).map fun i =>
    (List.range 224).map fun j =>
      getPixel px (i * h / 224) (j * w / 224)

/-- Line 92: `np.array(image)` on an RGB PIL image, giving a
height x width x 3 array of uint8 channel values. -/
def np_array (px : List (List Pixel)) : List (List (List Nat)) :=
  px.map (fun row => row.map (fun p => [p.1, p.2.1, p.2.2]))

/-- Line 93: `image_array.astype('float32') / 255.0`. -/
def normalize01 (a : List (List (List Nat))) : List (List (List ℚ)) :=
  a.map (fun plane => plane.map (fun row => row.map (fun v : Nat => (v : ℚ) / 255)))

/-- Line 96: `np.expand_dims(image_array, axis=0)`. -/
def expand_dims (a : List (List (List ℚ))) : Tensor4 := [a]

/-- Lines 78-102, `preprocess_image`.  The PIL decoder
(`Image.open(io.BytesIO(image_bytes))`) is an external library call,
passed in as the `decode` parameter; `none` models a decode exception.
Any exception in the body is caught and re-raised as
`HTTPException(400, f"Error processing image: {e}")`. -/
def preprocess_image (decode : List Nat → Option PILImage)
    (image_bytes : List Nat) : Except HTTPError Tensor4 :=
  match decode image_bytes with
  | none =>
      .error ⟨400, "Error processing image: cannot identify image file"⟩
  | some image =>
      let rgb := image.convertRGB
      let resized := resizeRGB224 rgb
      .ok (expand_dims (normalize01 (np_array resized)))

/-- The channel bound survives RGB conversion. -/
theorem convertRGB_bound (img : PILImage) (hv : img.Valid) :
    ∀ row ∈ img.convertRGB, ∀ p ∈ row,
      p.1 ≤ 255 ∧ p.2.1 ≤ 255 ∧ p.2.2 ≤ 255 := by
  cases img with
  | rgbImg px => exact hv
  | grayImg px =>
      intro row hrow p hp
      simp only [PILImage.convertRGB, List.mem_map] at hrow
      obtain ⟨row0, hrow0, rfl⟩ := hrow
      simp only [List.mem_map] at hp
      obtain ⟨v, hvmem, rfl⟩ := hp
      have := hv row0 hrow0 v hvmem
      exact ⟨this, this, this⟩
  | rgbaImg px =>
      intro row hrow p hp
      simp only [PILImage.convertRGB, List.mem_map] at hrow
      obtain ⟨row0, hrow0, rfl⟩ := hrow
      simp only [List.mem_map] at hp
      obtain ⟨q, hqmem, rfl⟩ := hp
      exact hv row0 hrow0 q hqmem

/-- Pixel access on a bounded grid yields bounded channels (the default
pixel (0,0,0) is bounded as well). -/
theorem getPixel_bound (px : List (List Pixel))
    (hb : ∀ row ∈ px, ∀ p ∈ row, p.1 ≤ 255 ∧ p.2.1 ≤ 255 ∧ p.2.2 ≤ 255)
    (r c : Nat) :
    (getPixel px r c).1 ≤ 255 ∧ (getPixel px r c).2.1 ≤ 255 ∧
      (getPixel px r c).2.2 ≤ 255 := by
  unfold getPixel
  by_cases hr : r < px.length
  · rw [List.getD_eq_getElem _ _ hr]
    by_cases hc : c < px[r].length
    · rw [List.getD_eq_getElem _ _ hc]
      exact hb px[r] (List.getElem_mem hr) _ (List.getElem_mem hc)
    · rw [List.getD_eq_default _ _ (Nat.le_of_not_lt hc)]
      simp
  · rw [List.getD_eq_default _ _ (Nat.le_of_not_lt hr)]
    simp [List.getD]

/-- `preprocess_image` on decodable bytes: the pipeline of lines 85-98. -/
theorem preprocess_image_eq (decode : List Nat → Option PILImage)
    (image_bytes : List Nat) (img : PILImage)
    (hdec : decode image_bytes = some img) :
    preprocess_image decode image_bytes =
      .ok (expand_dims (normalize01 (np_array (resizeRGB224 img.convertRGB)))) := by
  simp [preprocess_image, hdec]

/-- Fusing `normalize01` with `np_array`: each pixel becomes its list of
three normalized channel values. -/
theorem normalize01_np_array (px : List (List Pixel)) :
    normalize01 (np_array px) =
      px.map (fun row => row.map (fun p : Pixel =>
        [(p.1 : ℚ) / 255, (p.2.1 : ℚ) / 255, (p.2.2 : ℚ) / 255])) := by
  unfold normalize01 np_array
  rw [List.map_map]
  apply List.map_congr_left
  intro row _
  simp only [Function.comp_apply, List.map_map]
  apply List.map_congr_left
  intro p _
  rfl

/-- Shape of the preprocessed tensor: (1, 224, 224, 3), for any pixel grid. -/
theorem tensor_shape (px : List (List Pixel)) :
    (expand_dims (normalize01 (np_array (resizeRGB224 px)))).length = 1 ∧
    ∀ plane ∈ expand_dims (normalize01 (np_array (resizeRGB224 px))),
      plane.length = 224 ∧
      ∀ row ∈ plane, row.length = 224 ∧
        ∀ pix ∈ row, pix.length = 3 := by
  rw [normalize01_np_array]
  refine ⟨rfl, ?_⟩
  intro plane hplane
  simp only [expand_dims, List.mem_singleton] at hplane
  subst hplane
  constructor
  · simp [resizeRGB224]
  intro row hrow
  simp only [List.mem_map] at hrow
  obtain ⟨rrow, hrrow, rfl⟩ := hrow
  simp only [resizeRGB224, List.mem_map, List.mem_range] at hrrow
  obtain ⟨i, _, rfl⟩ := hrrow
  constructor
  · simp
  intro pix hpix
  simp only [List.mem_map] at hpix
  obtain ⟨p, _, rfl⟩ := hpix
  rfl

/-- Value range of the preprocessed tensor: every element lies in [0, 1],
provided every channel of the source grid is at most 255. -/
theorem tensor_range (px : List (List Pixel))
    (hb : ∀ row ∈ px, ∀ p ∈ row, p.1 ≤ 255 ∧ p.2.1 ≤ 255 ∧ p.2.2 ≤ 255) :
    ∀ plane ∈ expand_dims (normalize01 (np_array (resizeRGB224 px))),
      ∀ row ∈ plane, ∀ pix ∈ row, ∀ v ∈ pix, 0 ≤ v ∧ v ≤ 1 := by
  rw [normalize01_np_array]
  intro plane hplane
  simp only [expand_dims, List.mem_singleton] at hplane
  subst hplane
  intro row hrow
  simp only [List.mem_map] at hrow
  obtain ⟨rrow, hrrow, rfl⟩ := hrow
  simp only [resizeRGB224, List.mem_map, List.mem_range] at hrrow
  obtain ⟨i, _, rfl⟩ := hrrow
  intro pix hpix
  simp only [List.mem_map, List.mem_range] at hpix
  obtain ⟨p, ⟨j, hj, rfl⟩, rfl⟩ := hpix
  intro v hv
  have hp := getPixel_bound px hb (i * px.length / 224)
    (j * (px.headD []).length / 224)
  simp only [List.mem_cons, List.not_mem_nil, or_false] at hv
  have h255 : (0 : ℚ) < 255 := by norm_num
  rcases hv with rfl | rfl | rfl
  · refine ⟨by positivity, ?_⟩
    rw [div_le_one h255]
    exact_mod_cast hp.1
  · refine ⟨by positivity, ?_⟩
    rw [div_le_one h255]
    exact_mod_cast hp.2.1
  · refine ⟨by positivity, ?_⟩
    rw [div_le_one h255]
    exact_mod_cast hp.2.2

/-- C1: For every byte sequence that decodes as a valid image,
`preprocess_image` returns a tensor of exact shape (1, 224, 224, 3) with
every element in the closed interval [0, 1] (elements are the float32
values `channel / 255.0`, modelled as rationals). -/
theorem C1_preprocess_shape_and_range (decode : List Nat → Option PILImage)
    (image_bytes : List Nat) (img : PILImage)
    (hdec : decode image_bytes = some img) (hval : img.Valid) :
    ∃ t, preprocess_image decode image_bytes = .ok t ∧
      t.length = 1 ∧
      ∀ plane ∈ t, plane.length = 224 ∧
        ∀ row ∈ plane, row.length = 224 ∧
          ∀ pix ∈ row, pix.length = 3 ∧
            ∀ v ∈ pix, 0 ≤ v ∧ v ≤ 1 := by
  refine ⟨_, preprocess_image_eq decode image_bytes img hdec, ?_⟩
  have hshape := tensor_shape img.convertRGB
  have hrange := tensor_range img.convertRGB (convertRGB_bound img hval)
  refine ⟨hshape.1, ?_⟩
  intro plane hplane
  refine ⟨(hshape.2 plane hplane).1, ?_⟩
  intro row hrow
  refine ⟨((hshape.2 plane hplane).2 row hrow).1, ?_⟩
  intro pix hpix
  exact ⟨((hshape.2 plane hplane).2 row hrow).2 pix hpix,
    hrange plane hplane row hrow pix hpix⟩

/-- A concrete valid grayscale image and a decoder recognising it. -/
def sampleGray : PILImage := .grayImg [[0, 128], [255, 7]]

/-- A concrete decoder: byte sequence [1] decodes to `sampleGray`,
everything else fails to decode. -/
def sampleDecode : List Nat → Option PILImage :=
  fun bs => if bs = [1] then some sampleGray else none

theorem C1_preprocess_shape_and_range_witness :
    sampleDecode [1] = some sampleGray ∧ sampleGray.Valid ∧
    ∃ t, preprocess_image sampleDecode [1] = .ok t ∧
      t.length = 1 ∧
      ∀ plane ∈ t, plane.length = 224 ∧
        ∀ row ∈ plane, row.length = 224 ∧
          ∀ pix ∈ row, pix.length = 3 ∧
            ∀ v ∈ pix, 0 ≤ v ∧ v ≤ 1 :=
  ⟨rfl, by decide,
    C1_preprocess_shape_and_range sampleDecode [1] sampleGray rfl (by decide)⟩

/-- C7: For every successfully decoded source image whose mode is not RGB,
`preprocess_image` converts it to RGB — the conversion never fails (the
pipeline still returns a tensor) and the output tensor has exactly 3
channels in its innermost dimension. -/
theorem C7_non_rgb_converted_to_three_channels
    (decode : List Nat → Option PILImage) (image_bytes : List Nat)
    (img : PILImage) (hdec : decode image_bytes = some img)
    (hmode : img.mode ≠ "RGB") :
    ∃ t, preprocess_image decode image_bytes = .ok t ∧
      ∀ plane ∈ t, ∀ row ∈ plane, ∀ pix ∈ row, pix.length = 3 := by
  refine ⟨_, preprocess_image_eq decode image_bytes img hdec, ?_⟩
  have hshape := tensor_shape img.convertRGB
  intro plane hplane row hrow pix hpix
  exact ((hshape.2 plane hplane).2 row hrow).2 pix hpix

theorem C7_non_rgb_converted_to_three_channels_witness :
    sampleDecode [1] = some sampleGray ∧ sampleGray.mode ≠ "RGB" ∧
    ∃ t, preprocess_image sampleDecode [1] = .ok t ∧
      ∀ plane ∈ t, ∀ row ∈ plane, ∀ pix ∈ row, pix.length = 3 :=
  ⟨rfl, by decide,
    C7_non_rgb_converted_to_three_channels sampleDecode [1] sampleGray rfl
      (by decide)⟩

/- ### Request handlers (src/app.py lines 133-241) -/

/-- An uploaded multipart file, as FastAPI presents it to the handlers. -/
structure UploadFile where
  filename : String
  content_type : String
  contents : List Nat
deriving DecidableEq, Repr

/-- The successful JSON body of `POST /predict`
(lines 156-160 of src/app.py). -/
structure PredictOut where
  predicted_class : String
  confidence : ℚ
  filename : String
deriving DecidableEq, Repr

/-- One entry of the `results` list of `POST /predict-batch`:
either `{"filename", "predicted_class", "confidence"}` (lines 229-233)
or `{"filename", "error"}` (lines 211-214 and 236-239). -/
inductive BatchResult where
  | success (filename : String) (predicted_class : String) (confidence : ℚ)
  | failure (filename : String) (error : String)
deriving DecidableEq, Repr

/-- The `filename` field, present in both kinds of batch entries. -/
def BatchResult.name : BatchResult → String
  | .success fn _ _ => fn
  | .failure fn _ => fn

/-- `True` exactly for entries containing the `error` field. -/
def BatchResult.isFailure : BatchResult → Bool
  | .success _ _ _ => false
  | .failure _ _ => true

/-- The loop body of `predict_batch` for one file (lines 207-239).
The whole body runs inside a per-item `try`, so every exception —
including the `HTTPException(400, ...)` raised by `preprocess_image` and
the `IndexError` from the label lookup — becomes a `{"filename", "error":
str(e)}` entry.  `predict` is the opaque model call, already projected to
the probability vector `predictions[0]`. -/
def process_batch_item (decode : List Nat → Option PILImage)
    (predict : Tensor4 → List ℚ) (plant_classes : List String)
    (file : UploadFile) : BatchResult :=
  if ¬ str_startswith file.content_type "image/" then
    .failure file.filename "File must be an image"
  else
    match preprocess_image decode file.contents with
    | .error e => .failure file.filename (str_http e)
    | .ok t =>
        let predictions := predict t
        match format_top1 predictions plant_classes with
        | none => .failure file.filename "list index out of range"
        | some (predicted_class, confidence) =>
            .success file.filename predicted_class confidence

/-- Lines 198-241, `predict_batch`: reject batches of more than 10 files
with `HTTPException(400, ...)` before touching any file; otherwise process
every file independently, appending one result per file in order. -/
def predict_batch (decode : List Nat → Option PILImage)
    (predict : Tensor4 → List ℚ) (plant_classes : List String)
    (files : List UploadFile) : Except HTTPError (List BatchResult) :=
  if files.length > 10 then
    .error ⟨400, "Maximum 10 images allowed per batch"⟩
  else
    .ok (files.map (process_batch_item decode predict plant_classes))

/-- Lines 133-164, `predict_plant`.  The content-type check (line 138)
runs before the `try` block, so its `HTTPException(400, ...)` propagates.
Everything else — including the `HTTPException(400, ...)` raised inside
`preprocess_image` — runs inside `try: ... except Exception as e:
raise HTTPException(500, f"Prediction failed: {e}")` (lines 141-164), so
any failure there is re-raised with status 500. -/
def predict_plant (decode : List Nat → Option PILImage)
    (predict : Tensor4 → List ℚ) (plant_classes : List String)
    (file : UploadFile) : Except HTTPError PredictOut :=
  if ¬ str_startswith file.content_type "image/" then
    .error ⟨400, "File must be an image"⟩
  else
    let body : Except String PredictOut :=
      match preprocess_image decode file.contents with
      | .error e => .error (str_http e)
      | .ok t =>
          match format_top1 (predict t) plant_classes with
          | none => .error "list index out of range"
          | some (predicted_class, confidence) =>
              .ok ⟨predicted_class, confidence, file.filename⟩
    match body with
    | .ok r => .ok r
    | .error m => .error ⟨500, "Prediction failed: " ++ m⟩

/-- Field lookup in the JSON request dict (`'image' in request` /
`request['image']`). -/
def lookupField (request : List (String × String)) (key : String) :
    Option String :=
  (request.find? (fun kv => kv.1 = key)).map (·.2)

/-- Lines 166-196, `predict_plant_base64`.  The ENTIRE body, including the
missing-field check and its `HTTPException(400, ...)` (lines 171-172), is
inside `try: ... except Exception as e: raise HTTPException(500, ...)`, so
every failure is re-raised with status 500.  `b64decode` models
`base64.b64decode`; `none` models a raised `binascii.Error`. -/
def predict_plant_base64 (decode : List Nat → Option PILImage)
    (predict : Tensor4 → List ℚ) (plant_classes : List String)
    (b64decode : String → Option (List Nat))
    (request : List (String × String)) : Except HTTPError (String × ℚ) :=
  let body : Except String (String × ℚ) :=
    match lookupField request "image" with
    | none => .error (str_http ⟨400, "Missing 'image' field in request"⟩)
    | some s =>
        match b64decode s with
        | none => .error "Invalid base64-encoded string"
        | some image_data =>
            match preprocess_image decode image_data with
            | .error e => .error (str_http e)
            | .ok t =>
                match format_top1 (predict t) plant_classes with
                | none => .error "list index out of range"
                | some r => .ok r
  match body with
  | .ok r => .ok r
  | .error m => .error ⟨500, "Prediction failed: " ++ m⟩

/- ### Startup state and the health endpoint (src/app.py lines 18-59, 113-120) -/

/-- The process-wide globals `model` and `plant_classes` (lines 18-20),
both `None` before initialization.  The loaded model is represented by its
one consumed capability, the predict call. -/
structure AppState where
  model : Option (Tensor4 → List ℚ)
  plant_classes : Option (List String)

/-- Initial state: `model = None`, `plant_classes = None` (lines 19-20). -/
def initState : AppState := ⟨none, none⟩

/-- The files `load_model` reads: `none` models a missing file
(`os.path.exists` false). -/
structure ModelFiles where
  model_file : Option (Tensor4 → List ℚ)
  classes_file : Option (List String)

/-- Lines 22-48, `load_model`: set the global `model` from the model file,
then the global `plant_classes` from the classes file; a missing file
raises `FileNotFoundError`, which is re-raised.  The returned state keeps
the global assignments already performed before the failure. -/
def load_model (fs : ModelFiles) (s : AppState) :
    AppState × Except String Unit :=
  match fs.model_file with
  | none => (s, .error "Model file not found at plant_species_CNN.h5")
  | some m =>
      let s1 : AppState := { s with model := some m }
      match fs.classes_file with
      | none => (s1, .error "Classes file not found at plant_classes.json")
      | some cs =>
          ({ s1 with plant_classes := some cs }, .ok ())

/-- The JSON body of `GET /health`. -/
structure HealthOut where
  status : String
  model_loaded : Bool
  classes_loaded : Bool
deriving DecidableEq, Repr

/-- Lines 113-120, `health_check`: report whether the globals are set. -/
def health_check (s : AppState) : HealthOut :=
  ⟨"healthy", s.model.isSome, s.plant_classes.isSome⟩

/- ### Claim C2 -/

/-- C2: The top-1 formatting step selects the first index attaining the
maximum of the probability vector, returns the label at that index and the
value at that index as confidence; for [0.1, 0.7, 0.2] with labels
["A", "B", "C"] the result is ("B", 0.7), and for [0.5, 0.5] the selected
index is 0. -/
theorem C2_top1_first_max (probs : List ℚ) (classes : List String)
    (hne : probs ≠ []) (hlen : argmax probs < classes.length) :
    argmax probs < probs.length ∧
    (∀ k, k < probs.length → probs.getD k 0 ≤ probs.getD (argmax probs) 0) ∧
    (∀ k, k < argmax probs → probs.getD k 0 < probs.getD (argmax probs) 0) ∧
    format_top1 probs classes =
      some (classes.get ⟨argmax probs, hlen⟩, probs.getD (argmax probs) 0) ∧
    format_top1 [1/10, 7/10, 2/10] ["A", "B", "C"] = some ("B", 7/10) ∧
    argmax [1/2, (1 : ℚ)/2] = 0 := by
  refine ⟨argmax_lt_length probs hne, argmax_is_max probs, argmax_first probs,
    ?_, by norm_num [format_top1, argmax, List.getD],
    by norm_num [argmax, List.getD]⟩
  simp [format_top1, List.get?_eq_get hlen]

theorem C2_top1_first_max_witness :
    ([(1 : ℚ)/10, 7/10, 2/10] ≠ []) ∧
    argmax [(1 : ℚ)/10, 7/10, 2/10] < (["A", "B", "C"] : List String).length ∧
    format_top1 [(1 : ℚ)/10, 7/10, 2/10] ["A", "B", "C"] = some ("B", 7/10) ∧
    argmax [1/2, (1 : ℚ)/2] = 0 :=
  ⟨by simp, by norm_num [argmax, List.getD],
    (C2_top1_first_max [(1 : ℚ)/10, 7/10, 2/10] ["A", "B", "C"]
      (by simp) (by norm_num [argmax, List.getD])).2.2.2.2.1,
    (C2_top1_first_max [(1 : ℚ)/10, 7/10, 2/10] ["A", "B", "C"]
      (by simp) (by norm_num [argmax, List.getD])).2.2.2.2.2⟩

/- ### Claims C3, C4, C9, C10: the batch endpoint -/

/-- C4: A batch request with more than 10 files is rejected with the
400 `HTTPException` raised before the processing loop; the response is
this fixed error for EVERY model `predict`, every decoder and every label
map, so no inference is performed on any item. -/
theorem C4_batch_over_limit (decode : List Nat → Option PILImage)
    (predict : Tensor4 → List ℚ) (plant_classes : List String)
    (files : List UploadFile) (h : files.length > 10) :
    predict_batch decode predict plant_classes files =
      .error ⟨400, "Maximum 10 images allowed per batch"⟩ := by
  simp [predict_batch, h]

/-- C10: A batch of exactly 10 files passes the size check (`len > 10` is
strict), and the loop runs over all files. -/
theorem C10_batch_at_limit_accepted (decode : List Nat → Option PILImage)
    (predict : Tensor4 → List ℚ) (plant_classes : List String)
    (files : List UploadFile) (h : files.length = 10) :
    predict_batch decode predict plant_classes files =
      .ok (files.map (process_batch_item decode predict plant_classes)) := by
  simp [predict_batch, h]

/-- C9: An accepted batch (at most 10 files) yields exactly one result
entry per submitted file, in submission order: the i-th entry is the
processing of the i-th file. -/
theorem C9_batch_entry_per_file_in_order (decode : List Nat → Option PILImage)
    (predict : Tensor4 → List ℚ) (plant_classes : List String)
    (files : List UploadFile) (h : files.length ≤ 10) :
    ∃ rs, predict_batch decode predict plant_classes files = .ok rs ∧
      rs.length = files.length ∧
      ∀ i (hi : i < files.length),
        rs.get? i =
          some (process_batch_item decode predict plant_classes
            (files.get ⟨i, hi⟩)) := by
  refine ⟨files.map (process_batch_item decode predict plant_classes),
    by simp [predict_batch, Nat.not_lt.mpr h], by simp, ?_⟩
  intro i hi
  rw [List.get?_map, List.get?_eq_get hi]
  rfl

/-- C3: In an accepted batch, every submitted file produces exactly one
entry (a failing item does not abort the remaining ones), the filename is
preserved in every entry, an item rejected by the content-type check or
failing preprocessing yields an error entry, and an item whose pipeline
succeeds yields a prediction entry. -/
theorem C3_batch_per_item_isolation (decode : List Nat → Option PILImage)
    (predict : Tensor4 → List ℚ) (plant_classes : List String)
    (files : List UploadFile) (h : files.length ≤ 10) :
    ∃ rs, predict_batch decode predict plant_classes files = .ok rs ∧
      rs.length = files.length ∧
      ∀ i (hi : i < files.length),
        ∃ r, rs.get? i = some r ∧
          r.name = (files.get ⟨i, hi⟩).filename ∧
          (¬ str_startswith (files.get ⟨i, hi⟩).content_type "image/" →
            r = .failure (files.get ⟨i, hi⟩).filename "File must be an image") ∧
          (∀ e, str_startswith (files.get ⟨i, hi⟩).content_type "image/" →
            preprocess_image decode (files.get ⟨i, hi⟩).contents = .error e →
            r = .failure (files.get ⟨i, hi⟩).filename (str_http e)) ∧
          (∀ t c conf, str_startswith (files.get ⟨i, hi⟩).content_type "image/" →
            preprocess_image decode (files.get ⟨i, hi⟩).contents = .ok t →
            format_top1 (predict t) plant_classes = some (c, conf) →
            r = .success (files.get ⟨i, hi⟩).filename c conf) := by
  refine ⟨files.map (process_batch_item decode predict plant_classes),
    by simp [predict_batch, Nat.not_lt.mpr h], by simp, ?_⟩
  intro i hi
  refine ⟨process_batch_item decode predict plant_classes (files.get ⟨i, hi⟩),
    by rw [List.get?_map, List.get?_eq_get hi]; rfl, ?_, ?_, ?_, ?_⟩
  · -- filename preserved in every entry
    unfold process_batch_item
    split
    · rfl
    · split
      · rfl
      · dsimp only
        split
        · rfl
        · rfl
  · intro hct
    simp only [List.get_eq_getElem] at hct
    simp [process_batch_item, hct]
  · intro e hct hpre
    simp only [List.get_eq_getElem] at hct hpre
    simp [process_batch_item, hct, hpre]
  · intro t c conf hct hpre hfmt
    simp only [List.get_eq_getElem] at hct hpre hfmt
    simp [process_batch_item, hct, hpre, hfmt]

/- ### Concrete inputs for witnesses and counterexamples -/

/-- Opaque model stub for concrete scenarios: a one-hot probability vector
over two classes. -/
def samplePredict : Tensor4 → List ℚ := fun _ => [1, 0]

def sampleClasses : List String := ["Rose", "Tulip"]

/-- A well-formed image upload whose bytes `sampleDecode` accepts. -/
def goodFile (n : Nat) : UploadFile :=
  ⟨"leaf" ++ toString n ++ ".png", "image/png", [1]⟩

/-- A corrupt upload: image content type but undecodable bytes. -/
def corruptFile : UploadFile := ⟨"broken.png", "image/png", [2]⟩

/-- Four batch items, one of them corrupt. -/
def sampleBatch : List UploadFile :=
  [goodFile 1, goodFile 2, corruptFile, goodFile 3]

def files10 : List UploadFile := (List.range 10).map goodFile

def files11 : List UploadFile := (List.range 11).map goodFile

theorem C4_batch_over_limit_witness :
    files11.length > 10 ∧
    predict_batch sampleDecode samplePredict sampleClasses files11 =
      .error ⟨400, "Maximum 10 images allowed per batch"⟩ :=
  ⟨by decide,
    C4_batch_over_limit sampleDecode samplePredict sampleClasses files11
      (by decide)⟩

theorem C10_batch_at_limit_accepted_witness :
    files10.length = 10 ∧
    predict_batch sampleDecode samplePredict sampleClasses files10 =
      .ok (files10.map
        (process_batch_item sampleDecode samplePredict sampleClasses)) :=
  ⟨by decide,
    C10_batch_at_limit_accepted sampleDecode samplePredict sampleClasses
      files10 (by decide)⟩

theorem C9_batch_entry_per_file_in_order_witness :
    sampleBatch.length ≤ 10 ∧
    ∃ rs, predict_batch sampleDecode samplePredict sampleClasses sampleBatch =
        .ok rs ∧
      rs.length = sampleBatch.length ∧
      ∀ i (hi : i < sampleBatch.length),
        rs.get? i =
          some (process_batch_item sampleDecode samplePredict sampleClasses
            (sampleBatch.get ⟨i, hi⟩)) :=
  ⟨by decide,
    C9_batch_entry_per_file_in_order sampleDecode samplePredict sampleClasses
      sampleBatch (by decide)⟩

theorem C3_batch_per_item_isolation_witness :
    sampleBatch.length ≤ 10 ∧
    ∃ rs, predict_batch sampleDecode samplePredict sampleClasses sampleBatch =
        .ok rs ∧
      rs.length = sampleBatch.length ∧
      ∀ i (hi : i < sampleBatch.length),
        ∃ r, rs.get? i = some r ∧
          r.name = (sampleBatch.get ⟨i, hi⟩).filename ∧
          (¬ str_startswith (sampleBatch.get ⟨i, hi⟩).content_type "image/" →
            r = .failure (sampleBatch.get ⟨i, hi⟩).filename
              "File must be an image") ∧
          (∀ e,
            str_startswith (sampleBatch.get ⟨i, hi⟩).content_type "image/" →
            preprocess_image sampleDecode (sampleBatch.get ⟨i, hi⟩).contents =
              .error e →
            r = .failure (sampleBatch.get ⟨i, hi⟩).filename (str_http e)) ∧
          (∀ t c conf,
            str_startswith (sampleBatch.get ⟨i, hi⟩).content_type "image/" →
            preprocess_image sampleDecode (sampleBatch.get ⟨i, hi⟩).contents =
              .ok t →
            format_top1 (samplePredict t) sampleClasses = some (c, conf) →
            r = .success (sampleBatch.get ⟨i, hi⟩).filename c conf) :=
  ⟨by decide,
    C3_batch_per_item_isolation sampleDecode samplePredict sampleClasses
      sampleBatch (by decide)⟩

/- ### Claim C5: error statuses of the single-image predict endpoint -/

/-- C5 (code bug): the content-type check does reject non-image uploads
with status 400, but a DECODE failure yields status 500, not 400: the
`HTTPException(400, "Error processing image: ...")` raised by
`preprocess_image` is caught by the handler's catch-all
`except Exception` (line 162 of src/app.py) and re-raised as
`HTTPException(500, "Prediction failed: ...")`. -/
theorem C5_decode_failure_returns_500 :
    str_startswith corruptFile.content_type "image/" = true ∧
    preprocess_image sampleDecode corruptFile.contents =
      .error ⟨400, "Error processing image: cannot identify image file"⟩ ∧
    predict_plant sampleDecode samplePredict sampleClasses corruptFile =
      .error ⟨500,
        "Prediction failed: 400: Error processing image: cannot identify image file"⟩ ∧
    predict_plant sampleDecode samplePredict sampleClasses
      ⟨"notes.txt", "text/plain", [1]⟩ =
      .error ⟨400, "File must be an image"⟩ := by
  refine ⟨by decide, rfl, rfl, rfl⟩

/- ### Claim C6: error statuses of the base64 predict endpoint -/

/-- Base64 decoder stub that accepts every payload. -/
def sampleB64 : String → Option (List Nat) := fun _ => some [1]

/-- Base64 decoder stub modelling `binascii.Error` on a malformed payload. -/
def failB64 : String → Option (List Nat) := fun _ => none

/-- C6 (code bug): a missing `image` field and a malformed base64 payload
both yield status 500, not a 400-class error: the missing-field
`HTTPException(400, ...)` (line 172 of src/app.py) is raised INSIDE the
`try` block, so the catch-all `except Exception` (line 194) re-raises it —
like the `binascii.Error` of a failed `base64.b64decode` — as
`HTTPException(500, "Prediction failed: ...")`. -/
theorem C6_base64_failures_return_500 :
    predict_plant_base64 sampleDecode samplePredict sampleClasses sampleB64
      [] =
      .error ⟨500, "Prediction failed: 400: Missing 'image' field in request"⟩ ∧
    predict_plant_base64 sampleDecode samplePredict sampleClasses failB64
      [("image", "!!!")] =
      .error ⟨500, "Prediction failed: Invalid base64-encoded string"⟩ := by
  refine ⟨rfl, rfl⟩

/- ### Claim C8: the health endpoint and initialization -/

/-- C8: `/health` on the initial state (before initialization) reports
`model_loaded = false` and `classes_loaded = false`; after `load_model`
completes successfully, it reports both `true`. -/
theorem C8_health_reflects_initialization (fs : ModelFiles) :
    health_check initState = ⟨"healthy", false, false⟩ ∧
    ((load_model fs initState).2 = .ok () →
      health_check (load_model fs initState).1 = ⟨"healthy", true, true⟩) := by
  refine ⟨rfl, ?_⟩
  intro hok
  obtain ⟨mf, cf⟩ := fs
  cases mf with
  | none => simp [load_model] at hok
  | some m =>
      cases cf with
      | none => simp [load_model] at hok
      | some cs => rfl

/-- Model files present: a successful startup. -/
def sampleFiles : ModelFiles := ⟨some samplePredict, some sampleClasses⟩

theorem C8_health_reflects_initialization_witness :
    health_check initState = ⟨"healthy", false, false⟩ ∧
    health_check (load_model sampleFiles initState).1 =
      ⟨"healthy", true, true⟩ :=
  ⟨(C8_health_reflects_initialization sampleFiles).1,
    (C8_health_reflects_initialization sampleFiles).2 rfl⟩

end PlantVision
